import Mathlib

/-
  Verification of the Athletes repository's activity-sync and leaderboard
  pipeline against its design specification.

  Conventions of the shallow embedding:
  * JS numbers are modelled as Int (activity distances in meters and
    epoch instants in milliseconds or Unix seconds; every value the claims
    touch is integral, so integer arithmetic models the JS arithmetic
    exactly on these inputs).
  * JS `null`/`undefined` fields are modelled as Option; JS truthiness of a
    string value ("" is falsy) is checked explicitly where the source does.
  * External I/O (token endpoint, Strava activities endpoint, Supabase
    upserts) is modelled by passing the outcome of each call as an explicit
    argument, so every function is pure and executable.
  * The host's `new Date(string)` full-timestamp parser is kept abstract as
    an oracle argument `newDateT : String → Option Int` (ms since epoch,
    none = Invalid Date); the host local timezone is modelled as UTC.
-/

namespace Athletes

/-! ## String primitives

Kernel-computable models of the JS string operations the source uses
(the corresponding core String functions recurse on byte positions and
do not reduce in the kernel, so we work on the character list). -/

/-- JS String.prototype.toLowerCase (ASCII, which covers every string the
pipeline compares). -/
def jsToLower (s : String) : String :=
  ⟨s.data.map Char.toLower⟩

/-- Split a character list at every separator, keeping empty pieces, as
JS String.prototype.split with a character class does. -/
def splitOnPred (p : Char → Bool) : List Char → List (List Char)
  | [] => [[]]
  | c :: cs =>
    let rest := splitOnPred p cs
    if p c then [] :: rest
    else
      match rest with
      | [] => [[c]]
      | r :: rs => (c :: r) :: rs

/-- JS String.prototype.substring(0, 10) (ASCII inputs). -/
def jsSubstring10 (s : String) : String :=
  ⟨s.data.take 10⟩

def digitsToNat (l : List Char) : Nat :=
  l.foldl (fun n c => n * 10 + (c.toNat - 48)) 0

/-! ## Category normalization (src/js/strava_api.js, src/unnamed/part_000) -/

/-- Embedding of `normalizeActivityType` from src/js/strava_api.js lines
145-157 (identical copy in src/unnamed/part_000 lines 173-185): fixed
lookup table, unmapped types are lowercased. -/
def normalizeActivityType (stravaType : String) : String :=
  if stravaType = "Ride" then "cycling"
  else if stravaType = "VirtualRide" then "cycling"
  else if stravaType = "E-BikeRide" then "cycling"
  else if stravaType = "Run" then "run"
  else if stravaType = "VirtualRun" then "run"
  else if stravaType = "Walk" then "walk"
  else if stravaType = "Hike" then "hiking"
  else if stravaType = "Swim" then "swimming"
  else jsToLower stravaType

/-- Embedding of `mapActivityType` from src/js/strava_config.js lines
665-676 (the admin force-sync variant). Note: its table differs from
`normalizeActivityType` — it has the key EBikeRide (no hyphen) and has no
VirtualRun entry. -/
def mapActivityType (stravaType : String) : String :=
  if stravaType = "Run" then "run"
  else if stravaType = "Walk" then "walk"
  else if stravaType = "Hike" then "hiking"
  else if stravaType = "Ride" then "cycling"
  else if stravaType = "VirtualRide" then "cycling"
  else if stravaType = "Swim" then "swimming"
  else if stravaType = "EBikeRide" then "cycling"
  else jsToLower stravaType

/-! ## On-demand session cache (src/js/strava_api.js lines 207-264) -/

/-- Transformed activity shape produced by `transformActivities`
(src/js/strava_api.js lines 162-174); this is what the cache stores. -/
structure TransformedActivity where
  user_email : String
  strava_id : Int
  name : String
  type : String
  distance : Int
  moving_time : Int
  elapsed_time : Int
  total_elevation_gain : Int
  start_date : String
deriving DecidableEq, Repr

/-- A cache value as JSON-stored by `setCachedActivities`:
the activities plus the write timestamp (ms). -/
structure CacheEntry where
  activities : List TransformedActivity
  timestamp : Int
deriving DecidableEq, Repr

/-- sessionStorage modelled as an association list from string keys to
(already-deserialized) cache entries. -/
abbrev SessionStore := List (String × CacheEntry)

def CACHE_TTL : Int := 5 * 60 * 1000

/-- sessionStorage.getItem. -/
def storeGetItem (store : SessionStore) (k : String) : Option CacheEntry :=
  (store.find? (fun p => p.1 = k)).map Prod.snd

/-- sessionStorage.removeItem. -/
def storeRemoveItem (store : SessionStore) (k : String) : SessionStore :=
  store.filter (fun p => ¬ p.1 = k)

/-- sessionStorage.setItem (replaces any previous value at the key). -/
def storeSetItem (store : SessionStore) (k : String) (v : CacheEntry) : SessionStore :=
  (k, v) :: storeRemoveItem store k

/-- Embedding of `getCacheKey` (src/js/strava_api.js lines 209-211):
the fixed prefix, the user email, and an optional suffix ('' is falsy). -/
def getCacheKey (userEmail : String) (sfx : String) : String :=
  "strava_cache_" ++ userEmail ++ (if sfx = "" then "" else "_" ++ sfx)

/-- Embedding of `getCachedActivities` (src/js/strava_api.js lines
216-238). Returns the updated store together with the read result: a
missing key reports none; an entry older than CACHE_TTL (strictly) is
removed and reports none; otherwise the entry is returned unchanged.
The JSON (de)serialization layer is elided: entries are stored typed. -/
def getCachedActivities (store : SessionStore) (nowMs : Int)
    (userEmail sfx : String) : SessionStore × Option CacheEntry :=
  let key := getCacheKey userEmail sfx
  match storeGetItem store key with
  | none => (store, none)
  | some data =>
    if nowMs - data.timestamp > CACHE_TTL then
      (storeRemoveItem store key, none)
    else
      (store, some data)

/-- Embedding of `setCachedActivities` (src/js/strava_api.js lines
243-255): stores the activities with the current timestamp. -/
def setCachedActivities (store : SessionStore) (nowMs : Int)
    (userEmail : String) (acts : List TransformedActivity) (sfx : String) : SessionStore :=
  storeSetItem store (getCacheKey userEmail sfx) ⟨acts, nowMs⟩

/-! ## Date-range normalizer
(src/unnamed/part_000 lines 10-36 and src/js/strava_config.js lines 536-570) -/

/-- JS `Number` coercion of a possibly-undefined part of the split date
string, as used by `new Date(p[0], p[1] - 1, p[2], ...)`: an undefined
part or a non-numeric string gives NaN (none); the empty string gives 0;
a digit string gives its value. -/
def jsNumOfPart : Option String → Option Int
  | none => none
  | some s =>
    if s = "" then some 0
    else if s.data.all Char.isDigit then some (digitsToNat s.data : Int)
    else none

/-- The source splits a bare date string on the characters - and /
(dateTimeStr.split with that character class). -/
def splitDate (s : String) : List String :=
  (splitOnPred (fun c => c = '-' ∨ c = '/') s.data).map String.mk

/-- Days from the Unix epoch of a Gregorian civil date with the month
0-based and month/day overflow rolled over, as JS `new Date(y, m, d)`
normalizes them (Hinnant's days-from-civil algorithm). -/
def daysFromCivil (y m d : Int) : Int :=
  let y1 := y + m.fdiv 12
  let m1 := m.emod 12 + 1
  let y2 := if m1 ≤ 2 then y1 - 1 else y1
  let era := (if 0 ≤ y2 then y2 else y2 - 399).fdiv 400
  let yoe := y2 - era * 400
  let doy := (153 * (m1 + (if 2 < m1 then -3 else 9)) + 2).fdiv 5 + (d - 1)
  let doe := yoe * 365 + yoe.fdiv 4 - yoe.fdiv 100 + doy
  era * 146097 + doe - 719468

/-- Epoch milliseconds of JS `new Date(y, m, d, h, mi, sec, ms)` with the
host local timezone modelled as UTC; JS maps a year argument 0..99 to
1900+year. -/
def jsDateMs (y m d h mi sec ms : Int) : Int :=
  let y1 := if 0 ≤ y ∧ y ≤ 99 then y + 1900 else y
  daysFromCivil y1 m d * 86400000 + h * 3600000 + mi * 60000 + sec * 1000 + ms

/-- JS `new Date(p[0], p[1] - 1, p[2], h, mi, sec, ms)` on the split parts
of a bare date string: Invalid Date (none) when any of the three
positional parts coerces to NaN. -/
def newDateFromParts (parts : List String) (h mi sec ms : Int) : Option Int :=
  match jsNumOfPart parts[0]?, jsNumOfPart parts[1]?, jsNumOfPart parts[2]? with
  | some y, some mon, some d => some (jsDateMs y (mon - 1) d h mi sec ms)
  | _, _, _ => none

/-- The date construction shared by all four normalizer functions: a
string containing 'T' goes through the host full-timestamp parser
(abstracted as the oracle newDateT); otherwise the string is split on
the dash and slash characters and the parts fed to the Date
constructor. -/
def jsDateOf (newDateT : String → Option Int) (s : String)
    (h mi sec ms : Int) : Option Int :=
  if s.data.contains 'T' then newDateT s
  else newDateFromParts (splitDate s) h mi sec ms

/-- setHours(h, mi, sec, ms) on an instant, host local time modelled as
UTC: clears the time-of-day and installs the given one. -/
def setHoursUTC (t h mi sec ms : Int) : Int :=
  t - t.emod 86400000 + h * 3600000 + mi * 60000 + sec * 1000 + ms

/-- Embedding of `getStartOfDayUTC` from src/unnamed/part_000 lines 10-22:
empty input and an Invalid Date both yield null. -/
def getStartOfDayUTC (newDateT : String → Option Int) (s : String) : Option Int :=
  if s = "" then none
  else
    match jsDateOf newDateT s 0 0 0 0 with
    | none => none
    | some t => some (setHoursUTC t 0 0 0 0)

/-- Embedding of `getEndOfDayUTC` from src/unnamed/part_000 lines 24-36:
empty input yields the current instant, but an Invalid Date yields null
(isNaN ? null : date). -/
def getEndOfDayUTC (newDateT : String → Option Int) (nowMs : Int)
    (s : String) : Option Int :=
  if s = "" then some nowMs
  else
    match jsDateOf newDateT s 23 59 59 999 with
    | none => none
    | some t => some (setHoursUTC t 23 59 59 999)

/-- Embedding of `getStartOfDay` from src/js/strava_config.js lines
536-552: same behavior as getStartOfDayUTC (null on empty or invalid
input). -/
def getStartOfDay (newDateT : String → Option Int) (s : String) : Option Int :=
  if s = "" then none
  else
    match jsDateOf newDateT s 0 0 0 0 with
    | none => none
    | some t => some (setHoursUTC t 0 0 0 0)

/-- Embedding of `getEndOfDay` from src/js/strava_config.js lines 555-570:
empty input yields the current instant, and an Invalid Date also falls
back to the current instant (return new Date()). -/
def getEndOfDay (newDateT : String → Option Int) (nowMs : Int)
    (s : String) : Option Int :=
  if s = "" then some nowMs
  else
    match jsDateOf newDateT s 23 59 59 999 with
    | none => some nowMs
    | some t => some (setHoursUTC t 23 59 59 999)

/-! ## Credential manager (src/js/strava_api.js lines 179-200) -/

/-- JS falsiness of an optional string field (null, undefined and the
empty string are falsy). -/
def jsFalsyStr : Option String → Bool
  | none => true
  | some s => s = ""

/-- A user's credential fields from the profiles table. -/
structure Profile where
  email : String
  strava_access_token : Option String
  strava_refresh_token : Option String
  strava_token_expires_at : Option Int
deriving DecidableEq, Repr

/-- Token triple returned by the Strava token endpoint. -/
structure TokenData where
  access_token : String
  refresh_token : String
  expires_at : Int
deriving DecidableEq, Repr

/-- Embedding of `isTokenExpired` (src/js/strava_api.js lines 179-182):
now = floor(Date.now() / 1000); expired when now ≥ expires_at − 300.
A null expires_at coerces to 0 in the JS subtraction. -/
def isTokenExpired (nowMs : Int) (expiresAt : Option Int) : Bool :=
  let now := nowMs.fdiv 1000
  (expiresAt.getD 0) - 300 ≤ now

inductive GVATError
  | notConnected
  | refreshFailed
deriving DecidableEq, Repr

/-- Result of a successful getValidAccessToken call: the returned access
token and the token triple written through saveTokensToDatabase (none
when no refresh happened). -/
structure GVATOk where
  token : String
  persisted : Option TokenData
deriving DecidableEq, Repr

/-- Embedding of `getValidAccessToken` (src/js/strava_api.js lines
187-200). The token endpoint's response is passed in as refreshOutcome
(none = network failure or non-2xx, in which case refreshToken throws). -/
def getValidAccessToken (refreshOutcome : Option TokenData) (nowMs : Int)
    (p : Profile) : Except GVATError GVATOk :=
  if jsFalsyStr p.strava_access_token ∨ jsFalsyStr p.strava_refresh_token then
    .error .notConnected
  else
    if isTokenExpired nowMs p.strava_token_expires_at then
      match refreshOutcome with
      | none => .error .refreshFailed
      | some td => .ok ⟨td.access_token, some td⟩
    else
      .ok ⟨(p.strava_access_token.getD ""), none⟩

/-! ## Admin batch sync (src/js/strava_config.js lines 420-496)

forceSyncAllUsers iterates paid registrations; per user it looks up the
profile, refreshes the token when its own expiry check fires, fetches
activities (fetchStravaActivities, lines 573-611, which swallows HTTP
errors and returns an empty array), saves them, and tallies the outcome.
-/

/-- Raw Strava activity as returned by the activities endpoint (the
fields the sync pipeline reads). -/
structure StravaActivity where
  id : Int
  name : String
  type : String
  distance : Option Int
  moving_time : Option Int
  elapsed_time : Option Int
  total_elevation_gain : Option Int
  start_date : String
  start_date_local : String
deriving DecidableEq, Repr

/-- Outcome of the HTTP GET performed by fetchStravaActivities. -/
inductive FetchOutcome
  | ok (acts : List StravaActivity)
  | httpError
deriving DecidableEq, Repr

/-- Embedding of the error handling of `fetchStravaActivities`
(src/js/strava_config.js lines 573-611): a non-2xx response or a thrown
error is caught and an empty array returned — the helper never throws. -/
def fetchStravaActivities : FetchOutcome → List StravaActivity
  | .ok acts => acts
  | .httpError => []

/-- Per-registration external-world outcomes feeding one iteration of the
forceSyncAllUsers loop. -/
structure RegSyncInput where
  /-- Profile row for the registration's email; none models a query error
  or a missing row (profileError or no profile). -/
  profile : Option Profile
  /-- Result of refreshStravaToken if it gets called: the new access
  token, or none when the token endpoint rejects (the helper returns
  null). -/
  refreshOutcome : Option String
  /-- Result of the activities fetch. -/
  fetch : FetchOutcome
  /-- Whether saveActivitiesToEventTable throws for this user (for
  example an invalid event start date makes it dereference null). -/
  saveThrows : Bool
deriving DecidableEq, Repr

inductive SyncOutcome
  | synced
  | noStrava
  | errored
deriving DecidableEq, Repr

/-- Result of one iteration of the forceSyncAllUsers loop: which counter
it increments, and whether refreshStravaToken was invoked. -/
structure UserSyncStep where
  outcome : SyncOutcome
  refreshAttempted : Bool
deriving DecidableEq, Repr

/-- The expiry check used by forceSyncAllUsers (src/js/strava_config.js
line 463): `expiresAt && Date.now() / 1000 > expiresAt`. The division is
not floored there, so the comparison is the exact rational one
(nowMs / 1000 > e, i.e. nowMs > 1000·e); a null or zero expiresAt is
falsy and skips the refresh. Unlike isTokenExpired there is no 300 s
buffer. -/
def adminNeedsRefresh (nowMs : Int) (expiresAt : Option Int) : Bool :=
  match expiresAt with
  | none => false
  | some e => if e = 0 then false else 1000 * e < nowMs

/-- Continuation of one loop iteration after a usable access token is in
hand: fetch (which cannot throw), then save and count as synced; an
empty result is also counted as synced; a throwing save is caught and
counted as errored. -/
def syncUserAfterToken (inp : RegSyncInput) (refreshed : Bool) : UserSyncStep :=
  let acts := fetchStravaActivities inp.fetch
  if acts.isEmpty then ⟨.synced, refreshed⟩
  else if inp.saveThrows then ⟨.errored, refreshed⟩
  else ⟨.synced, refreshed⟩

/-- One iteration of the forceSyncAllUsers per-registration loop
(src/js/strava_config.js lines 445-488). -/
def syncUserStep (nowMs : Int) (inp : RegSyncInput) : UserSyncStep :=
  match inp.profile with
  | none => ⟨.noStrava, false⟩
  | some p =>
    if jsFalsyStr p.strava_access_token then ⟨.noStrava, false⟩
    else if adminNeedsRefresh nowMs p.strava_token_expires_at then
      match inp.refreshOutcome with
      | none => ⟨.errored, true⟩
      | some _ => syncUserAfterToken inp true
    else syncUserAfterToken inp false

/-- The tally reported by forceSyncAllUsers: total paid registrations and
the three counters. -/
structure SyncTally where
  total : Nat
  synced : Nat
  noStrava : Nat
  errored : Nat
deriving DecidableEq, Repr

/-- Embedding of the counting loop of `forceSyncAllUsers`
(src/js/strava_config.js lines 440-490): every registration is processed
in order and bumps exactly one counter; no per-user condition aborts the
loop. -/
def forceSyncAllUsers (nowMs : Int) (regs : List RegSyncInput) : SyncTally :=
  regs.foldl
    (fun t r =>
      match (syncUserStep nowMs r).outcome with
      | .synced => { t with synced := t.synced + 1 }
      | .noStrava => { t with noStrava := t.noStrava + 1 }
      | .errored => { t with errored := t.errored + 1 })
    ⟨regs.length, 0, 0, 0⟩

/-! ## Eligibility and leaderboard aggregation

Three renderLeaderboard variants exist: the persisted-table one
(src/js/leaderboard_logic.js lines 150-190), the per-event-table one
(src/unnamed/part_001 lines 239-290), and the on-demand one
(src/unnamed/part_001 lines 512-576). -/

/-- JS Set of strings: insertion-ordered, membership-deduplicating; the
size is the list length. -/
def jsSetAdd (s : List String) (x : String) : List String :=
  if x ∈ s then s else s ++ [x]

/-- The defensive type read common to the three aggregators:
`act.type ? act.type.toLowerCase() : 'unknown'` (a null or empty type is
falsy). -/
def jsTypeOf : Option String → String
  | none => "unknown"
  | some s => if s = "" then "unknown" else jsToLower s

/-- Eligibility chain of the persisted-table variant
(src/js/leaderboard_logic.js lines 155-165). -/
def isEligible (type : String) (dist : Int) : Bool :=
  if type = "walk" ∨ type = "run" ∨ type = "hiking" then 3000 ≤ dist
  else if type = "cycling" then 10000 ≤ dist
  else if type = "swimming" then 500 ≤ dist
  else false

/-- Eligibility chain of the per-event-table variant (src/unnamed/part_001
lines 252-262), which also accepts the raw type swim. -/
def isEligibleEv (type : String) (dist : Int) : Bool :=
  if type = "walk" ∨ type = "run" ∨ type = "hiking" then 3000 ≤ dist
  else if type = "cycling" then 10000 ≤ dist
  else if type = "swimming" ∨ type = "swim" then 500 ≤ dist
  else false

/-- Eligibility chain of the on-demand variant (src/unnamed/part_001 lines
531-545): a fourth else-if branch re-tests swim and swimming. -/
def isEligibleOd (type : String) (dist : Int) : Bool :=
  if type = "walk" ∨ type = "run" ∨ type = "hiking" then 3000 ≤ dist
  else if type = "cycling" then 10000 ≤ dist
  else if type = "swimming" then 500 ≤ dist
  else if type = "swim" ∨ type = "swimming" then 500 ≤ dist
  else false

/-- The activity-type dropdown check shared by the variants:
`activityFilter === 'all' || type === activityFilter.toLowerCase()`. -/
def matchesFilter (filterStr type : String) : Bool :=
  filterStr = "all" ∨ type = jsToLower filterStr

/-- Per-user counters of the persisted-table variant
(src/js/leaderboard_logic.js lines 125-131). -/
structure LegacyStats where
  totalDays : List String
  totalActivities : Nat
  totalDistance : Int
deriving DecidableEq, Repr

def legacyInit : LegacyStats := ⟨[], 0, 0⟩

/-- A row of the strava_activities table as the persisted-table
aggregator reads it. -/
structure DbActivity where
  strava_id : Int
  type : Option String
  distance : Option Int
  start_date : String
deriving DecidableEq, Repr

/-- Embedding of one step of the persisted-table aggregation loop
(src/js/leaderboard_logic.js lines 150-182). Note: the totals update sits
inside the matchesFilter branch — an activity whose type fails the
dropdown filter contributes nothing at all. -/
def legacyProcess (filterStr : String) (stats : LegacyStats)
    (act : DbActivity) : LegacyStats :=
  let type := jsTypeOf act.type
  let dist := act.distance.getD 0
  let elig := isEligible type dist
  if matchesFilter filterStr type then
    let stats1 :=
      if elig then
        let activityDate := jsSubstring10 act.start_date
        if activityDate = "" then stats
        else { stats with totalDays := jsSetAdd stats.totalDays activityDate }
      else stats
    { stats1 with
        totalActivities := stats1.totalActivities + 1
        totalDistance := stats1.totalDistance + dist }
  else stats

/-- Per-user counters of the part_001 variants (src/unnamed/part_001
lines 226-236 and 482-492). -/
structure EvStats where
  totalDays : List String
  eligibleActivities : Nat
  totalActivities : Nat
  eligibleDistance : Int
  totalDistance : Int
deriving DecidableEq, Repr

def evInit : EvStats := ⟨[], 0, 0, 0, 0⟩

/-- A row of a per-event activity table as the event-table aggregator
reads it; distance goes through parseFloat(act.distance) || 0. -/
structure EvActivity where
  strava_id : Int
  activity_name : String
  activity_type : Option String
  distance : Option Int
  activity_date : Option String
deriving DecidableEq, Repr

/-- Embedding of one step of the per-event-table aggregation loop
(src/unnamed/part_001 lines 240-277): totals are incremented first and
unconditionally; the day set and eligible counters move only for
filter-matching eligible activities with a truthy date. -/
def evProcess (filterStr : String) (stats : EvStats)
    (act : EvActivity) : EvStats :=
  let type := jsTypeOf act.activity_type
  let dist := act.distance.getD 0
  let stats1 := { stats with
    totalActivities := stats.totalActivities + 1
    totalDistance := stats.totalDistance + dist }
  let elig := isEligibleEv type dist
  if matchesFilter filterStr type ∧ elig then
    let stats2 :=
      match act.activity_date with
      | none => stats1
      | some d =>
        if d = "" then stats1
        else { stats1 with totalDays := jsSetAdd stats1.totalDays d }
    { stats2 with
        eligibleActivities := stats2.eligibleActivities + 1
        eligibleDistance := stats2.eligibleDistance + dist }
  else stats1

/-- An activity as the on-demand aggregator reads it (the transformed
shape, accessed defensively). -/
structure OdActivity where
  name : String
  type : Option String
  distance : Option Int
  start_date : Option String
deriving DecidableEq, Repr

/-- Embedding of one step of the on-demand aggregation loop
(src/unnamed/part_001 lines 521-562): same structure as the event-table
variant, with the date taken as the first ten characters of
act.start_date || "". -/
def odProcess (filterStr : String) (stats : EvStats)
    (act : OdActivity) : EvStats :=
  let type := jsTypeOf act.type
  let dist := act.distance.getD 0
  let stats1 := { stats with
    totalActivities := stats.totalActivities + 1
    totalDistance := stats.totalDistance + dist }
  let elig := isEligibleOd type dist
  if matchesFilter filterStr type ∧ elig then
    let activityDate := jsSubstring10 (act.start_date.getD "")
    let stats2 :=
      if activityDate = "" then stats1
      else { stats1 with totalDays := jsSetAdd stats1.totalDays activityDate }
    { stats2 with
        eligibleActivities := stats2.eligibleActivities + 1
        eligibleDistance := stats2.eligibleDistance + dist }
  else stats1

/-! ### Leaderboard sorting -/

/-- A user entry going into the persisted-table variant's sort. -/
structure LegacyRow where
  email : String
  stats : LegacyStats
deriving DecidableEq, Repr

/-- A user entry going into the part_001 variants' sort. -/
structure EvRow where
  email : String
  stats : EvStats
deriving DecidableEq, Repr

/-- The persisted-table comparator (src/js/leaderboard_logic.js lines
187-190) as a should-precede relation: a precedes b when the comparator
value b.totalDays.size − a.totalDays.size (or, on a day tie,
b.totalDistance − a.totalDistance) is ≤ 0. The tiebreak is the total
(filter-matching) distance, not the eligible distance. -/
def legacyLe (a b : LegacyRow) : Bool :=
  if b.stats.totalDays.length ≠ a.stats.totalDays.length then
    b.stats.totalDays.length ≤ a.stats.totalDays.length
  else b.stats.totalDistance ≤ a.stats.totalDistance

/-- The part_001 comparator (src/unnamed/part_001 lines 287-290 and
573-576) as a should-precede relation: day count descending, then
eligibleDistance descending. -/
def evLe (a b : EvRow) : Bool :=
  if b.stats.totalDays.length ≠ a.stats.totalDays.length then
    b.stats.totalDays.length ≤ a.stats.totalDays.length
  else b.stats.eligibleDistance ≤ a.stats.eligibleDistance

def legacyRel (a b : LegacyRow) : Prop := legacyLe a b = true

def evRel (a b : EvRow) : Prop := evLe a b = true

instance : DecidableRel legacyRel := fun a b => by
  unfold legacyRel; infer_instance

instance : DecidableRel evRel := fun a b => by
  unfold evRel; infer_instance

/-- The sort of the persisted-table variant (Array.prototype.sort with the
two-key comparator, modelled as an insertion sort respecting it). -/
def legacySort (rows : List LegacyRow) : List LegacyRow :=
  List.insertionSort legacyRel rows

/-- The sort of the part_001 variants. -/
def evSort (rows : List EvRow) : List EvRow :=
  List.insertionSort evRel rows

/-! ## Per-event table sync counts (src/unnamed/part_000 lines 472-559) -/

/-- Input to the upsert loop of `syncActivitiesToEventTable`: a fetched
raw activity reduced to the fields the loop's control flow reads — its
UTC start instant (new Date(act.start_date).getTime()) and the outcome
its upsert will have at the persistence service. -/
structure RawSyncAct where
  id : Int
  startMs : Int
  upsertFails : Bool
deriving DecidableEq, Repr

/-- Embedding of the windowing and counting core of
`syncActivitiesToEventTable` (src/unnamed/part_000 lines 504-554): an
empty fetch result returns zero counts; otherwise the raw activities are
re-filtered client-side to the exact UTC window and each one is
upserted, a failure incrementing skipped and a success synced, with the
loop never aborting. Returns (synced, skipped). -/
def syncActivitiesCounts (startTs endTs : Int)
    (raw : List RawSyncAct) : Nat × Nat :=
  if raw.isEmpty then (0, 0)
  else
    let filtered := raw.filter (fun a => startTs ≤ a.startMs ∧ a.startMs ≤ endTs)
    filtered.foldl
      (fun c a => if a.upsertFails then (c.1, c.2 + 1) else (c.1 + 1, c.2))
      (0, 0)

/-! ## Spec-side definitions used for refinement comparisons -/

/-- Modelled from the spec: the eligible distance of a user — the summed
distance of eligible, filter-matching activities only — for activities
read from the persisted strava_activities table, using the persisted
variant's own type and threshold conventions. -/
def specEligibleDistance (filterStr : String) (acts : List DbActivity) : Int :=
  ((acts.filter (fun a =>
      matchesFilter filterStr (jsTypeOf a.type)
        ∧ isEligible (jsTypeOf a.type) (a.distance.getD 0))).map
    (fun a => a.distance.getD 0)).sum

/-! ## Concrete fixtures -/

/-- Activities of user A for the ranking-tiebreak analysis: five eligible
4000 m runs plus five ineligible 2000 m runs across the same five
days — eligible distance 20000 m but total (filter-matching) distance
30000 m. -/
def actsA : List DbActivity :=
  [⟨1, some "run", some 4000, "2024-06-01 08:00:00"⟩,
   ⟨2, some "run", some 4000, "2024-06-02 08:00:00"⟩,
   ⟨3, some "run", some 4000, "2024-06-03 08:00:00"⟩,
   ⟨4, some "run", some 4000, "2024-06-04 08:00:00"⟩,
   ⟨5, some "run", some 4000, "2024-06-05 08:00:00"⟩,
   ⟨6, some "run", some 2000, "2024-06-01 18:00:00"⟩,
   ⟨7, some "run", some 2000, "2024-06-02 18:00:00"⟩,
   ⟨8, some "run", some 2000, "2024-06-03 18:00:00"⟩,
   ⟨9, some "run", some 2000, "2024-06-04 18:00:00"⟩,
   ⟨10, some "run", some 2000, "2024-06-05 18:00:00"⟩]

/-- Activities of user B: five eligible 5000 m runs on five days —
eligible distance 25000 m, total distance 25000 m. -/
def actsB : List DbActivity :=
  [⟨11, some "run", some 5000, "2024-06-01 08:00:00"⟩,
   ⟨12, some "run", some 5000, "2024-06-02 08:00:00"⟩,
   ⟨13, some "run", some 5000, "2024-06-03 08:00:00"⟩,
   ⟨14, some "run", some 5000, "2024-06-04 08:00:00"⟩,
   ⟨15, some "run", some 5000, "2024-06-05 08:00:00"⟩]

/-- User A's aggregated stats under the persisted-table variant with the
dropdown on all. -/
def statsA : LegacyStats := actsA.foldl (legacyProcess "all") legacyInit

/-- User B's aggregated stats under the persisted-table variant with the
dropdown on all. -/
def statsB : LegacyStats := actsB.foldl (legacyProcess "all") legacyInit

/-! ## Theorems -/

theorem filter_idem {α} (p : α → Bool) (l : List α) :
    (l.filter p).filter p = l.filter p := by
  induction l with
  | nil => rfl
  | cons a l ih => by_cases h : p a <;> simp [List.filter_cons, h, ih]

theorem storeRemoveItem_setItem (store : SessionStore) (k : String) (v : CacheEntry) :
    storeRemoveItem (storeSetItem store k v) k = storeRemoveItem store k := by
  simp [storeSetItem, storeRemoveItem, List.filter_cons, filter_idem]

theorem storeGetItem_setItem (store : SessionStore) (k : String) (v : CacheEntry) :
    storeGetItem (storeSetItem store k v) k = some v := by
  simp [storeSetItem, storeGetItem, List.find?_cons]

/-- C7: a cache entry written at time T is returned unchanged by a read
strictly within the 5-minute TTL, and a read after the TTL evicts the
entry and reports absent. -/
theorem cache_ttl_hit_then_evict (store : SessionStore) (u sfx : String)
    (acts : List TransformedActivity) (T now1 now2 : Int)
    (h1 : now1 - T < CACHE_TTL) (h2 : CACHE_TTL < now2 - T) :
    getCachedActivities (setCachedActivities store T u acts sfx) now1 u sfx
        = (setCachedActivities store T u acts sfx, some ⟨acts, T⟩)
      ∧ getCachedActivities (setCachedActivities store T u acts sfx) now2 u sfx
        = (storeRemoveItem store (getCacheKey u sfx), none) := by
  constructor
  · simp only [getCachedActivities, setCachedActivities, storeGetItem_setItem]
    rw [if_neg (by omega)]
  · simp only [getCachedActivities, setCachedActivities, storeGetItem_setItem]
    rw [if_pos (by omega), storeRemoveItem_setItem]

/-- C7 witness: an entry written at T = 0 is returned at 299999 ms and
evicted (reported absent) at 300001 ms. -/
theorem cache_ttl_hit_then_evict_witness :
    getCachedActivities (setCachedActivities [] 0 "alice@x.com" [] "recent")
        299999 "alice@x.com" "recent"
      = (setCachedActivities [] 0 "alice@x.com" [] "recent", some ⟨[], 0⟩)
    ∧ getCachedActivities (setCachedActivities [] 0 "alice@x.com" [] "recent")
        300001 "alice@x.com" "recent"
      = (storeRemoveItem [] (getCacheKey "alice@x.com" "recent"), none) :=
  cache_ttl_hit_then_evict [] "alice@x.com" "recent" [] 0 299999 300001
    (by decide) (by decide)

/-- C10: at an age exactly equal to the TTL the cache still hits, because
expiry requires the age to strictly exceed CACHE_TTL. -/
theorem cache_ttl_boundary_hit (store : SessionStore) (u sfx : String)
    (acts : List TransformedActivity) (T now : Int)
    (h : now - T = CACHE_TTL) :
    getCachedActivities (setCachedActivities store T u acts sfx) now u sfx
      = (setCachedActivities store T u acts sfx, some ⟨acts, T⟩) := by
  simp only [getCachedActivities, setCachedActivities, storeGetItem_setItem]
  rw [if_neg (by omega)]

/-- C10 witness: a read at exactly T + 300000 ms still returns the
entry. -/
theorem cache_ttl_boundary_hit_witness :
    getCachedActivities (setCachedActivities [] 0 "alice@x.com" [] "recent")
        300000 "alice@x.com" "recent"
      = (setCachedActivities [] 0 "alice@x.com" [] "recent", some ⟨[], 0⟩) :=
  cache_ttl_boundary_hit [] "alice@x.com" "recent" [] 0 300000 (by decide)

/-- C5 counterexample: the admin-sync implementation mapActivityType does
not implement the claimed table — it lowercases E-BikeRide (its table
key is EBikeRide) and lowercases VirtualRun (no such entry), so the
mapping is not identical in every implementation. -/
theorem mapActivityType_table_counterexample :
    mapActivityType "E-BikeRide" = "e-bikeride"
      ∧ ¬ mapActivityType "E-BikeRide" = "cycling"
      ∧ mapActivityType "VirtualRun" = "virtualrun"
      ∧ ¬ mapActivityType "VirtualRun" = "run" := by
  decide

/-- C5 amended: normalizeActivityType implements the claimed fixed table
exactly and lowercases everything else; mapActivityType is also pure and
total with lowercase passthrough, but over a different table — EBikeRide
(not E-BikeRide) maps to cycling and VirtualRun is absent. -/
theorem activity_type_mapping_tables (s t : String)
    (hs : s ∉ ["Ride", "VirtualRide", "E-BikeRide", "Run", "VirtualRun",
               "Walk", "Hike", "Swim"])
    (ht : t ∉ ["Run", "Walk", "Hike", "Ride", "VirtualRide", "Swim",
               "EBikeRide"]) :
    (normalizeActivityType "Ride" = "cycling"
      ∧ normalizeActivityType "VirtualRide" = "cycling"
      ∧ normalizeActivityType "E-BikeRide" = "cycling"
      ∧ normalizeActivityType "Run" = "run"
      ∧ normalizeActivityType "VirtualRun" = "run"
      ∧ normalizeActivityType "Walk" = "walk"
      ∧ normalizeActivityType "Hike" = "hiking"
      ∧ normalizeActivityType "Swim" = "swimming"
      ∧ normalizeActivityType "FutureSportXYZ" = "futuresportxyz"
      ∧ normalizeActivityType s = jsToLower s)
    ∧ (mapActivityType "EBikeRide" = "cycling"
      ∧ mapActivityType "E-BikeRide" = "e-bikeride"
      ∧ mapActivityType "VirtualRun" = "virtualrun"
      ∧ mapActivityType t = jsToLower t) := by
  simp only [List.mem_cons, List.not_mem_nil, or_false, not_or] at hs ht
  obtain ⟨s1, s2, s3, s4, s5, s6, s7, s8⟩ := hs
  obtain ⟨t1, t2, t3, t4, t5, t6, t7⟩ := ht
  refine ⟨⟨by decide, by decide, by decide, by decide, by decide, by decide,
           by decide, by decide, by decide, ?_⟩,
          by decide, by decide, by decide, ?_⟩
  · unfold normalizeActivityType
    simp [s1, s2, s3, s4, s5, s6, s7, s8]
  · unfold mapActivityType
    simp [t1, t2, t3, t4, t5, t6, t7]

/-- C5 witness: the table equations together with the passthrough at the
unmapped categories FutureSportXYZ and Kayaking. -/
theorem activity_type_mapping_tables_witness :
    (normalizeActivityType "Ride" = "cycling"
      ∧ normalizeActivityType "VirtualRide" = "cycling"
      ∧ normalizeActivityType "E-BikeRide" = "cycling"
      ∧ normalizeActivityType "Run" = "run"
      ∧ normalizeActivityType "VirtualRun" = "run"
      ∧ normalizeActivityType "Walk" = "walk"
      ∧ normalizeActivityType "Hike" = "hiking"
      ∧ normalizeActivityType "Swim" = "swimming"
      ∧ normalizeActivityType "FutureSportXYZ" = "futuresportxyz"
      ∧ normalizeActivityType "FutureSportXYZ" = jsToLower "FutureSportXYZ")
    ∧ (mapActivityType "EBikeRide" = "cycling"
      ∧ mapActivityType "E-BikeRide" = "e-bikeride"
      ∧ mapActivityType "VirtualRun" = "virtualrun"
      ∧ mapActivityType "Kayaking" = jsToLower "Kayaking") :=
  activity_type_mapping_tables "FutureSportXYZ" "Kayaking"
    (by decide) (by decide)

/-- C4 counterexample: on the malformed, unparseable input not-a-date,
part_000's getEndOfDayUTC returns absent rather than the current
instant; only the strava_config getEndOfDay has the claimed lenient
fallback. -/
theorem getEndOfDayUTC_malformed_counterexample :
    getEndOfDayUTC (fun _ => none) 1234567 "not-a-date" = none
      ∧ getEndOfDay (fun _ => none) 1234567 "not-a-date" = some 1234567 := by
  constructor
  · rfl
  · rfl

/-- C4 amended: both start-of-day implementations return absent exactly
when the input is empty or constructs an invalid date; the strava_config
getEndOfDay never fails (it falls back to the current instant), but
part_000's getEndOfDayUTC fails (absent) precisely on a non-empty input
whose date construction is invalid — its current-instant fallback covers
only the empty input. -/
theorem date_normalizer_failure_modes (newDateT : String → Option Int)
    (nowMs : Int) (s : String) :
    (getStartOfDayUTC newDateT s = none
        ↔ s = "" ∨ jsDateOf newDateT s 0 0 0 0 = none)
      ∧ (getStartOfDay newDateT s = none
        ↔ s = "" ∨ jsDateOf newDateT s 0 0 0 0 = none)
      ∧ (getEndOfDay newDateT nowMs s).isSome = true
      ∧ (getEndOfDayUTC newDateT nowMs s = none
        ↔ ¬ s = "" ∧ jsDateOf newDateT s 23 59 59 999 = none)
      ∧ getEndOfDayUTC newDateT nowMs "" = some nowMs := by
  refine ⟨?_, ?_, ?_, ?_, rfl⟩
  · by_cases h : s = ""
    · simp [getStartOfDayUTC, h]
    · cases hd : jsDateOf newDateT s 0 0 0 0 <;>
        simp [getStartOfDayUTC, h, hd]
  · by_cases h : s = ""
    · simp [getStartOfDay, h]
    · cases hd : jsDateOf newDateT s 0 0 0 0 <;>
        simp [getStartOfDay, h, hd]
  · by_cases h : s = ""
    · simp [getEndOfDay, h]
    · cases hd : jsDateOf newDateT s 23 59 59 999 <;>
        simp [getEndOfDay, h, hd]
  · by_cases h : s = ""
    · simp [getEndOfDayUTC, h]
    · cases hd : jsDateOf newDateT s 23 59 59 999 <;>
        simp [getEndOfDayUTC, h, hd]

/-- C1 counterexample: on a credential with expires_at = now + 200 the
credential manager getValidAccessToken refreshes (persists the new
triple and returns the new access token), but the admin batch sync's
per-user check — which compares now against expires_at with no 300 s
buffer — does not invoke a refresh on the very same credential, so the
300 s threshold does not govern every credential-resolution path. -/
theorem credential_threshold_admin_counterexample :
    getValidAccessToken (some ⟨"newA", "newR", 2000000⟩) 1000000000
        ⟨"u@x.com", some "A", some "R", some 1000200⟩
      = .ok ⟨"newA", some ⟨"newA", "newR", 2000000⟩⟩
    ∧ (syncUserStep 1000000000
        ⟨some ⟨"u@x.com", some "A", some "R", some 1000200⟩,
         some "newA", .ok [], false⟩).refreshAttempted = false := by
  exact ⟨rfl, rfl⟩

/-- C1 amended: getValidAccessToken refreshes — persisting the token
triple and returning the new access token — exactly when
now ≥ expires_at − 300 (so expires_at = now + 200 refreshes and
expires_at = now + 400 does not), but the admin batch sync's per-user
credential check uses no buffer (it refreshes only when now strictly
exceeds expires_at), so expires_at = now + 200 does not trigger a
refresh on that path. -/
theorem credential_refresh_threshold (nowMs : Int) (p : Profile)
    (td : TokenData) (tok rt : String)
    (h1 : p.strava_access_token = some tok) (h2 : ¬ tok = "")
    (h3 : p.strava_refresh_token = some rt) (h4 : ¬ rt = "") :
    ((p.strava_token_expires_at.getD 0) - 300 ≤ nowMs.fdiv 1000 →
        getValidAccessToken (some td) nowMs p = .ok ⟨td.access_token, some td⟩)
    ∧ (nowMs.fdiv 1000 < (p.strava_token_expires_at.getD 0) - 300 →
        getValidAccessToken (some td) nowMs p = .ok ⟨tok, none⟩)
    ∧ (p.strava_token_expires_at = some (nowMs.fdiv 1000 + 200) →
        getValidAccessToken (some td) nowMs p = .ok ⟨td.access_token, some td⟩)
    ∧ (p.strava_token_expires_at = some (nowMs.fdiv 1000 + 400) →
        getValidAccessToken (some td) nowMs p = .ok ⟨tok, none⟩)
    ∧ (∀ nowSec : Int,
        adminNeedsRefresh (1000 * nowSec) (some (nowSec + 200)) = false) := by
  refine ⟨fun h => ?_, fun h => ?_, fun h => ?_, fun h => ?_, fun n => ?_⟩
  · simp [getValidAccessToken, jsFalsyStr, isTokenExpired, h1, h2, h3, h4, h]
  · simp [getValidAccessToken, jsFalsyStr, isTokenExpired, h1, h2, h3, h4,
      not_le.mpr h]
  · simp [getValidAccessToken, jsFalsyStr, isTokenExpired, h1, h2, h3, h4, h]
  · simp [getValidAccessToken, jsFalsyStr, isTokenExpired, h1, h2, h3, h4, h]
  · by_cases h : n + 200 = 0 <;> simp [adminNeedsRefresh, h]

/-- C1 witness: at now = 1000000 s (nowMs = 10^9), a credential expiring
at now + 200 is refreshed and one expiring at now + 400 is returned
unchanged. -/
theorem credential_refresh_threshold_witness :
    getValidAccessToken (some ⟨"newA", "newR", 2000000⟩) 1000000000
        ⟨"u@x.com", some "A", some "R", some (((1000000000 : Int).fdiv 1000) + 200)⟩
      = .ok ⟨"newA", some ⟨"newA", "newR", 2000000⟩⟩
    ∧ getValidAccessToken (some ⟨"newA", "newR", 2000000⟩) 1000000000
        ⟨"u@x.com", some "A", some "R", some (((1000000000 : Int).fdiv 1000) + 400)⟩
      = .ok ⟨"A", none⟩ :=
  ⟨(credential_refresh_threshold 1000000000
      ⟨"u@x.com", some "A", some "R", some (((1000000000 : Int).fdiv 1000) + 200)⟩
      ⟨"newA", "newR", 2000000⟩ "A" "R" rfl (by decide) rfl (by decide)).2.2.1 rfl,
   (credential_refresh_threshold 1000000000
      ⟨"u@x.com", some "A", some "R", some (((1000000000 : Int).fdiv 1000) + 400)⟩
      ⟨"newA", "newR", 2000000⟩ "A" "R" rfl (by decide) rfl (by decide)).2.2.2.1 rfl⟩

theorem forceSync_counts (nowMs : Int) (regs : List RegSyncInput) :
    forceSyncAllUsers nowMs regs =
      ⟨regs.length,
       regs.countP (fun r => (syncUserStep nowMs r).outcome = .synced),
       regs.countP (fun r => (syncUserStep nowMs r).outcome = .noStrava),
       regs.countP (fun r => (syncUserStep nowMs r).outcome = .errored)⟩ := by
  unfold forceSyncAllUsers
  suffices h : ∀ (l : List RegSyncInput) (tot a b c : Nat),
      l.foldl
        (fun t r =>
          match (syncUserStep nowMs r).outcome with
          | .synced => { t with synced := t.synced + 1 }
          | .noStrava => { t with noStrava := t.noStrava + 1 }
          | .errored => { t with errored := t.errored + 1 })
        (⟨tot, a, b, c⟩ : SyncTally)
      = (⟨tot,
         a + l.countP (fun r => (syncUserStep nowMs r).outcome = .synced),
         b + l.countP (fun r => (syncUserStep nowMs r).outcome = .noStrava),
         c + l.countP (fun r => (syncUserStep nowMs r).outcome = .errored)⟩ : SyncTally) by
    rw [h]; simp
  intro l
  induction l with
  | nil => intro tot a b c; simp
  | cons r l ih =>
    intro tot a b c
    rw [List.foldl_cons]
    cases hr : (syncUserStep nowMs r).outcome <;>
      simp [hr, ih, List.countP_cons, SyncTally.mk.injEq] <;> omega

theorem countP_outcomes (nowMs : Int) (regs : List RegSyncInput) :
    regs.countP (fun r => (syncUserStep nowMs r).outcome = .synced)
      + regs.countP (fun r => (syncUserStep nowMs r).outcome = .noStrava)
      + regs.countP (fun r => (syncUserStep nowMs r).outcome = .errored)
    = regs.length := by
  induction regs with
  | nil => simp
  | cons r l ih =>
    cases hr : (syncUserStep nowMs r).outcome <;>
      simp [List.countP_cons, hr] <;> omega

/-- C8 amended: the batch sync is a total tally — every registration bumps
exactly one of the three counters, the counters sum to the number of
registrations, a missing credential is counted as no-credential, and a
refresh failure as errored. However, an activities fetch failure is
swallowed by the fetch helper (which returns an empty list) and the
user is counted as synced, not errored. In the 3-registrant example
where the 2nd has no stored credential the tally is
total 3, synced 2, no-credential 1, errored 0. -/
theorem forceSync_batch_resilience (nowMs : Int) (regs : List RegSyncInput) :
    (forceSyncAllUsers nowMs regs).total = regs.length
    ∧ (forceSyncAllUsers nowMs regs).synced
        + (forceSyncAllUsers nowMs regs).noStrava
        + (forceSyncAllUsers nowMs regs).errored = regs.length
    ∧ (∀ inp : RegSyncInput, inp.profile = none →
        (syncUserStep nowMs inp).outcome = .noStrava)
    ∧ (∀ inp : RegSyncInput, ∀ p : Profile, inp.profile = some p →
        jsFalsyStr p.strava_access_token = false →
        adminNeedsRefresh nowMs p.strava_token_expires_at = true →
        inp.refreshOutcome = none →
        (syncUserStep nowMs inp).outcome = .errored)
    ∧ forceSyncAllUsers 1700000000000
        [⟨some ⟨"a@x.com", some "A", some "R", none⟩, none, .ok [], false⟩,
         ⟨none, none, .httpError, false⟩,
         ⟨some ⟨"c@x.com", some "A", some "R", none⟩, none, .ok [], false⟩]
      = ⟨3, 2, 1, 0⟩ := by
  refine ⟨?_, ?_, ?_, ?_, by decide⟩
  · rw [forceSync_counts]
  · rw [forceSync_counts]; exact countP_outcomes nowMs regs
  · intro inp h
    simp [syncUserStep, h]
  · intro inp p hp htok href hro
    simp [syncUserStep, hp, htok, href, hro]

/-- C8 witness: the 3-registrant example evaluated through the theorem,
together with the no-credential classification at the 2nd registrant. -/
theorem forceSync_batch_resilience_witness :
    (syncUserStep 1700000000000
        (⟨none, none, .httpError, false⟩ : RegSyncInput)).outcome = .noStrava
    ∧ forceSyncAllUsers 1700000000000
        [⟨some ⟨"a@x.com", some "A", some "R", none⟩, none, .ok [], false⟩,
         ⟨none, none, .httpError, false⟩,
         ⟨some ⟨"c@x.com", some "A", some "R", none⟩, none, .ok [], false⟩]
      = ⟨3, 2, 1, 0⟩ :=
  ⟨(forceSync_batch_resilience 1700000000000 []).2.2.1
      ⟨none, none, .httpError, false⟩ rfl,
   (forceSync_batch_resilience 1700000000000 []).2.2.2.2⟩

/-- C8 counterexample: a fetch failure does not increment a failure
counter — with a single registrant whose credential is valid but whose
activities fetch returns a non-2xx response, the tally reports
synced = 1 and errored = 0, because fetchStravaActivities swallows the
error and returns an empty array that is counted as synced. -/
theorem forceSync_fetch_failure_counterexample :
    forceSyncAllUsers 1700000000000
        [⟨some ⟨"a@x.com", some "A", some "R", none⟩, none, .httpError, false⟩]
      = ⟨1, 1, 0, 0⟩ := by
  decide

/-- C2 counterexample: in the persisted-table aggregator an activity that
fails the dropdown type filter contributes nothing — a 5000 m walk under
the run filter leaves totalActivities and totalDistance at 0, instead of
incrementing them unconditionally. -/
theorem legacy_totals_not_unconditional_counterexample :
    legacyProcess "run" legacyInit
        ⟨1, some "walk", some 5000, "2024-06-01 08:00:00"⟩ = legacyInit := by
  decide

/-- C2 amended: the per-event-table and on-demand aggregators increment
totalActivities and totalDistance unconditionally for every processed
activity; the persisted-table aggregator increments them exactly when
the activity matches the dropdown type filter (then regardless of
eligibility), and leaves them unchanged otherwise. -/
theorem totals_increment_policy (filterStr : String)
    (sE sO : EvStats) (aE : EvActivity) (aO : OdActivity)
    (sL : LegacyStats) (aL : DbActivity) :
    ((evProcess filterStr sE aE).totalActivities = sE.totalActivities + 1
      ∧ (evProcess filterStr sE aE).totalDistance
          = sE.totalDistance + aE.distance.getD 0)
    ∧ ((odProcess filterStr sO aO).totalActivities = sO.totalActivities + 1
      ∧ (odProcess filterStr sO aO).totalDistance
          = sO.totalDistance + aO.distance.getD 0)
    ∧ ((legacyProcess filterStr sL aL).totalActivities
        = (if matchesFilter filterStr (jsTypeOf aL.type)
           then sL.totalActivities + 1 else sL.totalActivities)
      ∧ (legacyProcess filterStr sL aL).totalDistance
        = (if matchesFilter filterStr (jsTypeOf aL.type)
           then sL.totalDistance + aL.distance.getD 0 else sL.totalDistance)) := by
  refine ⟨⟨?_, ?_⟩, ⟨?_, ?_⟩, ?_, ?_⟩ <;>
    · simp only [evProcess, odProcess, legacyProcess]
      cases aE.activity_date <;> (repeat' split) <;> simp_all

/-- Membership is preserved by the JS Set add. -/
theorem mem_jsSetAdd_self (s : List String) (x : String) : x ∈ jsSetAdd s x := by
  by_cases h : x ∈ s <;> simp [jsSetAdd, h]

theorem jsSetAdd_of_mem (s : List String) (x : String) (h : x ∈ s) :
    jsSetAdd s x = s := by
  simp [jsSetAdd, h]

/-- The persisted-table aggregator's day set after one step, when the
activity is filter-matching, eligible and has a nonempty date. -/
theorem legacyProcess_totalDays_hit (f : String) (s : LegacyStats)
    (a : DbActivity)
    (hm : matchesFilter f (jsTypeOf a.type) = true)
    (he : isEligible (jsTypeOf a.type) (a.distance.getD 0) = true)
    (hd : ¬ jsSubstring10 a.start_date = "") :
    (legacyProcess f s a).totalDays
      = jsSetAdd s.totalDays (jsSubstring10 a.start_date) := by
  simp [legacyProcess, hm, he, hd]

/-- The persisted-table aggregator's day set after one step never shrinks
and can only grow by the activity's own date. -/
theorem legacyProcess_totalDays_cases (f : String) (s : LegacyStats)
    (a : DbActivity) :
    (legacyProcess f s a).totalDays = s.totalDays
      ∨ (legacyProcess f s a).totalDays
          = jsSetAdd s.totalDays (jsSubstring10 a.start_date) := by
  simp only [legacyProcess]
  split_ifs <;> simp

/-- The on-demand aggregator's day set after one step, when the activity
is filter-matching, eligible and has a nonempty date. -/
theorem odProcess_totalDays_hit (f : String) (s : EvStats) (a : OdActivity)
    (hm : matchesFilter f (jsTypeOf a.type) = true)
    (he : isEligibleOd (jsTypeOf a.type) (a.distance.getD 0) = true)
    (hd : ¬ jsSubstring10 (a.start_date.getD "") = "") :
    (odProcess f s a).totalDays
      = jsSetAdd s.totalDays (jsSubstring10 (a.start_date.getD "")) := by
  simp [odProcess, hm, he, hd]

theorem odProcess_totalDays_cases (f : String) (s : EvStats) (a : OdActivity) :
    (odProcess f s a).totalDays = s.totalDays
      ∨ (odProcess f s a).totalDays
          = jsSetAdd s.totalDays (jsSubstring10 (a.start_date.getD "")) := by
  simp only [odProcess]
  split_ifs <;> simp

/-- C6: distinct-day counting — after an eligible, filter-matching
activity with a nonempty date has been processed, processing a second
activity with the same calendar date leaves the eligible-day count
unchanged, in both the persisted-table and the on-demand aggregators. -/
theorem distinct_day_dedup (filterStr : String)
    (sL : LegacyStats) (a b : DbActivity)
    (sO : EvStats) (c d : OdActivity)
    (hLm : matchesFilter filterStr (jsTypeOf a.type) = true)
    (hLe : isEligible (jsTypeOf a.type) (a.distance.getD 0) = true)
    (hLd : ¬ jsSubstring10 a.start_date = "")
    (hLeq : jsSubstring10 b.start_date = jsSubstring10 a.start_date)
    (hOm : matchesFilter filterStr (jsTypeOf c.type) = true)
    (hOe : isEligibleOd (jsTypeOf c.type) (c.distance.getD 0) = true)
    (hOd : ¬ jsSubstring10 (c.start_date.getD "") = "")
    (hOeq : jsSubstring10 (d.start_date.getD "")
      = jsSubstring10 (c.start_date.getD "")) :
    (legacyProcess filterStr (legacyProcess filterStr sL a) b).totalDays.length
      = (legacyProcess filterStr sL a).totalDays.length
    ∧ (odProcess filterStr (odProcess filterStr sO c) d).totalDays.length
      = (odProcess filterStr sO c).totalDays.length := by
  constructor
  · have h1 := legacyProcess_totalDays_hit filterStr sL a hLm hLe hLd
    have hmem : jsSubstring10 b.start_date
        ∈ (legacyProcess filterStr sL a).totalDays := by
      rw [h1, hLeq]; exact mem_jsSetAdd_self _ _
    rcases legacyProcess_totalDays_cases filterStr
        (legacyProcess filterStr sL a) b with h2 | h2
    · rw [h2]
    · rw [h2, jsSetAdd_of_mem _ _ hmem]
  · have h1 := odProcess_totalDays_hit filterStr sO c hOm hOe hOd
    have hmem : jsSubstring10 (d.start_date.getD "")
        ∈ (odProcess filterStr sO c).totalDays := by
      rw [h1, hOeq]; exact mem_jsSetAdd_self _ _
    rcases odProcess_totalDays_cases filterStr
        (odProcess filterStr sO c) d with h2 | h2
    · rw [h2]
    · rw [h2, jsSetAdd_of_mem _ _ hmem]

/-- C6 witness: two eligible 5000 m runs on 2024-06-01 yield a single
eligible day in both aggregators. -/
theorem distinct_day_dedup_witness :
    (legacyProcess "all"
        (legacyProcess "all" legacyInit
          ⟨1, some "run", some 5000, "2024-06-01 08:00:00"⟩)
        ⟨2, some "run", some 5000, "2024-06-01 18:00:00"⟩).totalDays.length
      = (legacyProcess "all" legacyInit
          ⟨1, some "run", some 5000, "2024-06-01 08:00:00"⟩).totalDays.length
    ∧ (odProcess "all"
        (odProcess "all" evInit
          ⟨"Morning Run", some "run", some 5000, some "2024-06-01 08:00:00"⟩)
        ⟨"Evening Run", some "run", some 5000,
          some "2024-06-01 18:00:00"⟩).totalDays.length
      = (odProcess "all" evInit
          ⟨"Morning Run", some "run", some 5000,
            some "2024-06-01 08:00:00"⟩).totalDays.length :=
  distinct_day_dedup "all" legacyInit
    ⟨1, some "run", some 5000, "2024-06-01 08:00:00"⟩
    ⟨2, some "run", some 5000, "2024-06-01 18:00:00"⟩
    evInit
    ⟨"Morning Run", some "run", some 5000, some "2024-06-01 08:00:00"⟩
    ⟨"Evening Run", some "run", some 5000, some "2024-06-01 18:00:00"⟩
    (by decide) (by decide) (by decide) (by decide)
    (by decide) (by decide) (by decide) (by decide)

/-- C9: the per-event table sync returns (synced, skipped) that partition
the in-window activities — synced counts exactly the in-window
activities whose upsert succeeds, skipped exactly those whose upsert
fails, and their sum is the number of in-window activities processed;
in particular an upsert failure never prevents later activities from
being counted. -/
theorem sync_counts_partition (startTs endTs : Int) (raw : List RawSyncAct) :
    (syncActivitiesCounts startTs endTs raw).1
        = ((raw.filter (fun a => startTs ≤ a.startMs ∧ a.startMs ≤ endTs)).filter
            (fun a => !a.upsertFails)).length
    ∧ (syncActivitiesCounts startTs endTs raw).2
        = ((raw.filter (fun a => startTs ≤ a.startMs ∧ a.startMs ≤ endTs)).filter
            (fun a => a.upsertFails)).length
    ∧ (syncActivitiesCounts startTs endTs raw).1
        + (syncActivitiesCounts startTs endTs raw).2
        = (raw.filter (fun a => startTs ≤ a.startMs ∧ a.startMs ≤ endTs)).length := by
  have key : ∀ (l : List RawSyncAct) (s k : Nat),
      l.foldl (fun c a => if a.upsertFails then (c.1, c.2 + 1) else (c.1 + 1, c.2))
          (s, k)
        = (s + (l.filter (fun a => !a.upsertFails)).length,
           k + (l.filter (fun a => a.upsertFails)).length) := by
    intro l
    induction l with
    | nil => intro s k; simp
    | cons a l ih =>
      intro s k
      rw [List.foldl_cons]
      by_cases h : a.upsertFails <;>
        simp [h, ih, List.filter_cons, Prod.ext_iff] <;> omega
  have hlen : ∀ l : List RawSyncAct,
      (l.filter (fun a => !a.upsertFails)).length
        + (l.filter (fun a => a.upsertFails)).length = l.length := by
    intro l
    induction l with
    | nil => simp
    | cons a l ih =>
      by_cases h : a.upsertFails <;> simp [List.filter_cons, h] <;> omega
  unfold syncActivitiesCounts
  by_cases hr : raw.isEmpty
  · rw [List.isEmpty_iff] at hr
    simp [hr]
  · simp only [hr, if_false, Bool.false_eq_true]
    rw [key]
    refine ⟨by simp, by simp, ?_⟩
    simp only [Nat.zero_add]
    exact hlen _

theorem evLe_total (a b : EvRow) : evLe a b = true ∨ evLe b a = true := by
  unfold evLe
  by_cases h : b.stats.totalDays.length = a.stats.totalDays.length
  · rw [if_neg (by omega), if_neg (by omega)]
    simp only [decide_eq_true_eq]
    exact le_total _ _
  · rw [if_pos (by omega), if_pos (by omega)]
    simp only [decide_eq_true_eq]
    omega

theorem evLe_trans (a b c : EvRow) (hab : evLe a b = true)
    (hbc : evLe b c = true) : evLe a c = true := by
  unfold evLe at *
  by_cases h1 : b.stats.totalDays.length = a.stats.totalDays.length <;>
    by_cases h2 : c.stats.totalDays.length = b.stats.totalDays.length <;>
    by_cases h3 : c.stats.totalDays.length = a.stats.totalDays.length <;>
    simp_all <;> first
      | exact le_trans hbc hab
      | omega

theorem legacyLe_total (a b : LegacyRow) :
    legacyLe a b = true ∨ legacyLe b a = true := by
  unfold legacyLe
  by_cases h : b.stats.totalDays.length = a.stats.totalDays.length
  · rw [if_neg (by omega), if_neg (by omega)]
    simp only [decide_eq_true_eq]
    exact le_total _ _
  · rw [if_pos (by omega), if_pos (by omega)]
    simp only [decide_eq_true_eq]
    omega

theorem legacyLe_trans (a b c : LegacyRow) (hab : legacyLe a b = true)
    (hbc : legacyLe b c = true) : legacyLe a c = true := by
  unfold legacyLe at *
  by_cases h1 : b.stats.totalDays.length = a.stats.totalDays.length <;>
    by_cases h2 : c.stats.totalDays.length = b.stats.totalDays.length <;>
    by_cases h3 : c.stats.totalDays.length = a.stats.totalDays.length <;>
    simp_all <;> first
      | exact le_trans hbc hab
      | omega

instance : IsTotal EvRow evRel := ⟨evLe_total⟩

instance : IsTrans EvRow evRel := ⟨evLe_trans⟩

instance : IsTotal LegacyRow legacyRel := ⟨legacyLe_total⟩

instance : IsTrans LegacyRow legacyRel := ⟨legacyLe_trans⟩

/-- C3 counterexample: in the persisted-table variant the tiebreak is the
total filter-matching distance, not the eligible distance. With the
dropdown on all, user A (five eligible 4000 m runs plus five ineligible
2000 m runs, eligible distance 20000 m, total 30000 m) and user B (five
eligible 5000 m runs, eligible distance 25000 m, total 25000 m) both
have 5 eligible days, yet A ranks above B even though B's eligible
distance is larger — contradicting the claim that every variant
tie-breaks on eligible distance. -/
theorem legacy_sort_tiebreak_counterexample :
    statsA.totalDays.length = 5
    ∧ statsB.totalDays.length = 5
    ∧ specEligibleDistance "all" actsA = 20000
    ∧ specEligibleDistance "all" actsB = 25000
    ∧ legacySort [⟨"a@x.com", statsA⟩, ⟨"b@x.com", statsB⟩]
        = [⟨"a@x.com", statsA⟩, ⟨"b@x.com", statsB⟩] := by
  refine ⟨by decide, by decide, by decide, by decide, ?_⟩
  decide

/-- C3 amended: every aggregator variant sorts by eligible-day count
descending first; the per-event-table and on-demand variants break day
ties by eligibleDistance descending (so B with 5 days / 25000 m ranks
above A with 5 days / 20000 m), while the persisted-table variant breaks
day ties by its totalDistance — the summed distance of all
filter-matching activities regardless of eligibility. -/
theorem leaderboard_sort_order (rows : List EvRow) (lrows : List LegacyRow) :
    List.Sorted evRel (evSort rows)
    ∧ List.Sorted legacyRel (legacySort lrows)
    ∧ evSort
        [⟨"a@x.com", ⟨["d1", "d2", "d3", "d4", "d5"], 5, 5, 20000, 20000⟩⟩,
         ⟨"b@x.com", ⟨["d1", "d2", "d3", "d4", "d5"], 5, 5, 25000, 25000⟩⟩]
      = [⟨"b@x.com", ⟨["d1", "d2", "d3", "d4", "d5"], 5, 5, 25000, 25000⟩⟩,
         ⟨"a@x.com", ⟨["d1", "d2", "d3", "d4", "d5"], 5, 5, 20000, 20000⟩⟩] := by
  refine ⟨List.sorted_insertionSort evRel rows,
          List.sorted_insertionSort legacyRel lrows, ?_⟩
  decide

end Athletes
